import Mathlib

/-
Verification of dipy/reconst/beltrami.py: the Iwasawa coordinate
transforms (x_manifold, d_manifold) and the finite-difference operators
(forward_diff, backward_diff), embedded over exact rational arithmetic.

A tensor field is a map from voxel indices to 6 channels of rationals,
in the order Dxx, Dxy, Dyy, Dxz, Dyz, Dzz.  A boolean mask selects the
voxels that are converted; unmasked voxels of the output stay at the
zero the output array is initialized with.  Spatial fields for the
difference operators are maps Fin nx → Fin ny → Fin nz → ℚ, and the
numpy fancy-index arrays shift = append(arange(1,n), n-1) and
shift = append(0, arange(0,n-1)) are embedded as the index maps
shiftFwd and shiftBwd.
-/

namespace Beltrami

/-- Per-voxel body of x_manifold: the six assignments
X[mask,0] = Dxx, X[mask,3] = Dxy/Dxx, X[mask,4] = Dxz/Dxx,
X[mask,1] = Dyy - X1*X4^2, X[mask,5] = (Dyz - X1*X4*X5)/X2,
X[mask,2] = Dzz - X1*X5^2 - X2*X6^2, each later assignment reading
the values already stored, exactly as the source does. -/
def x_manifold_voxel (D : Fin 6 → ℚ) : Fin 6 → ℚ :=
  let Dxx := D 0
  let Dxy := D 1
  let Dyy := D 2
  let Dxz := D 3
  let Dyz := D 4
  let Dzz := D 5
  let X1 := Dxx
  let X4 := Dxy / Dxx
  let X5 := Dxz / Dxx
  let X2 := Dyy - X1 * X4 ^ 2
  let X6 := (Dyz - X1 * X4 * X5) / X2
  let X3 := Dzz - X1 * X5 ^ 2 - X2 * X6 ^ 2
  ![X1, X2, X3, X4, X5, X6]

/-- Per-voxel body of d_manifold: D[mask,0] = X1, D[mask,1] = X1*X4,
D[mask,2] = X2 + X1*X4^2, D[mask,3] = X1*X5,
D[mask,4] = X1*X4*X5 + X2*X6, D[mask,5] = X3 + X1*X5^2 + X2*X6^2. -/
def d_manifold_voxel (X : Fin 6 → ℚ) : Fin 6 → ℚ :=
  let X1 := X 0
  let X2 := X 1
  let X3 := X 2
  let X4 := X 3
  let X5 := X 4
  let X6 := X 5
  ![X1, X1 * X4, X2 + X1 * X4 ^ 2, X1 * X5,
    X1 * X4 * X5 + X2 * X6, X3 + X1 * X5 ^ 2 + X2 * X6 ^ 2]

/-- Translation of x_manifold: the output array starts as np.zeros(D.shape)
and only the masked voxels are populated, so an unmasked voxel keeps
zeros in all 6 channels. -/
def x_manifold {ι : Type} (D : ι → Fin 6 → ℚ) (mask : ι → Bool) :
    ι → Fin 6 → ℚ :=
  fun v => if mask v then x_manifold_voxel (D v) else fun _ => 0

/-- Translation of d_manifold: zero-initialized output, masked voxels
populated from the per-voxel inverse map. -/
def d_manifold {ι : Type} (X : ι → Fin 6 → ℚ) (mask : ι → Bool) :
    ι → Fin 6 → ℚ :=
  fun v => if mask v then d_manifold_voxel (X v) else fun _ => 0

/-- Concrete tensor of the spec scenario: Dxx=2, Dxy=2, Dyy=5, Dxz=4,
Dyz=6, Dzz=14. -/
def Dex : Fin 6 → ℚ := ![2, 2, 5, 4, 6, 14]

/-- One-voxel tensor field holding Dex. -/
def DexField : Unit → Fin 6 → ℚ := fun _ => Dex

/-- Mask selecting every voxel. -/
def maskTrue : Unit → Bool := fun _ => true

/-- Mask selecting no voxel. -/
def maskFalse : Unit → Bool := fun _ => false

/-- Concrete Iwasawa coordinates of the spec scenario. -/
def Xex : Fin 6 → ℚ := ![2, 3, 14 / 3, 1, 2, 2 / 3]

/-- One-voxel coordinate field holding Xex. -/
def XexField : Unit → Fin 6 → ℚ := fun _ => Xex

/-- Spatial field type of the difference operators: one Iwasawa
coordinate sampled on an nx-by-ny-by-nz voxel grid. -/
def Grid (nx ny nz : ℕ) : Type := Fin nx → Fin ny → Fin nz → ℚ

/-- Index map realized by the numpy fancy index
shift = np.append(np.arange(1, n), n-1): position i maps to i+1,
clamped to n-1 at the upper edge. -/
def shiftFwd {n : ℕ} (i : Fin n) : Fin n :=
  if h : i.val + 1 < n then ⟨i.val + 1, h⟩ else i

/-- Index map realized by the numpy fancy index
shift = np.append(0, np.arange(0, n-1)): position i maps to i-1,
clamped to 0 at the lower edge. -/
def shiftBwd {n : ℕ} (i : Fin n) : Fin n :=
  ⟨i.val - 1, Nat.lt_of_le_of_lt (Nat.sub_le _ _) i.isLt⟩

/-- Failure modes of the Python functions: an explicit invalid-argument
rejection (raise ValueError or similar, which the source never does),
the IndexError raised by a tuple lookup with an out-of-range index, and
the UnboundLocalError raised when the body reaches the return statement
with its result variable never assigned. -/
inductive PyError
  | invalidArgument
  | indexError
  | unboundLocal
deriving DecidableEq

/-- Translation of forward_diff; dim is a Python int, embedded as ℤ.
The statement n = Xi.shape[dim] runs first: Xi is 3-dimensional, so its
shape is a 3-tuple, which accepts indices -3..2 and raises IndexError
for any other dim before the if/elif chain is reached.  The chain then
computes (Xi[shift, ...] - Xi) / vox_size for dim 0, 1, 2; it has no
else branch, so the surviving dims -1, -2, -3 match no branch, leave
dfX unassigned, and the final return dfX raises UnboundLocalError. -/
def forward_diff {nx ny nz : ℕ} (Xi : Grid nx ny nz) (dim : ℤ)
    (vox_size : ℚ) : Except PyError (Grid nx ny nz) :=
  if 2 < dim ∨ dim < -3 then
    Except.error PyError.indexError
  else if dim = 0 then
    Except.ok fun i j k => (Xi (shiftFwd i) j k - Xi i j k) / vox_size
  else if dim = 1 then
    Except.ok fun i j k => (Xi i (shiftFwd j) k - Xi i j k) / vox_size
  else if dim = 2 then
    Except.ok fun i j k => (Xi i j (shiftFwd k) - Xi i j k) / vox_size
  else
    Except.error PyError.unboundLocal

/-- Translation of backward_diff, with the same error path as
forward_diff: IndexError from n = Xi.shape[dim] for dim outside -3..2,
UnboundLocalError from the else-less if/elif chain for dim -1, -2, -3.
The dim 0 and dim 1 branches compute (Xi - Xi[shift]) / vox_size, but
the dim 2 branch of the source reads
dbX = Xi - (Xi[..., shift]) / vox_size, so only the shifted term is
divided by the voxel size. -/
def backward_diff {nx ny nz : ℕ} (Xi : Grid nx ny nz) (dim : ℤ)
    (vox_size : ℚ) : Except PyError (Grid nx ny nz) :=
  if 2 < dim ∨ dim < -3 then
    Except.error PyError.indexError
  else if dim = 0 then
    Except.ok fun i j k => (Xi i j k - Xi (shiftBwd i) j k) / vox_size
  else if dim = 1 then
    Except.ok fun i j k => (Xi i j k - Xi i (shiftBwd j) k) / vox_size
  else if dim = 2 then
    Except.ok fun i j k => Xi i j k - Xi i j (shiftBwd k) / vox_size
  else
    Except.error PyError.unboundLocal

/-- Concrete 4-sample field 1,2,4,7 along the x axis. -/
def field1247 : Grid 4 1 1 := fun i _ _ => ![1, 2, 4, 7] i

/-- Forward difference of field1247 along axis 0 at unit voxel size. -/
def fwdX1247 : Grid 4 1 1 :=
  fun i j k => (field1247 (shiftFwd i) j k - field1247 i j k) / 1

/-- Forward difference of field1247 along axis 1 at unit voxel size. -/
def fwdY1247 : Grid 4 1 1 :=
  fun i j k => (field1247 i (shiftFwd j) k - field1247 i j k) / 1

/-- Forward difference of field1247 along axis 2 at unit voxel size. -/
def fwdZ1247 : Grid 4 1 1 :=
  fun i j k => (field1247 i j (shiftFwd k) - field1247 i j k) / 1

/-- Constant field of ones on the same grid as field1247. -/
def onesX : Grid 4 1 1 := fun _ _ _ => 1

/-- Forward difference of onesX along axis 0 at unit voxel size. -/
def fwdOnesX : Grid 4 1 1 :=
  fun i j k => (onesX (shiftFwd i) j k - onesX i j k) / 1

/-- Concrete 2-sample field 3,5 along the z axis. -/
def fieldZ35 : Grid 1 1 2 := fun _ _ k => ![3, 5] k

/-- Value of the source dim 2 branch of backward_diff on fieldZ35 at
voxel size 2. -/
def bwdZ35 : Grid 1 1 2 :=
  fun i j k => fieldZ35 i j k - fieldZ35 i j (shiftBwd k) / 2

/-- Constant field of ones along the z axis. -/
def onesZ : Grid 1 1 2 := fun _ _ _ => 1

/-- Value of the source dim 2 branch of backward_diff on onesZ at
voxel size 2. -/
def bwdOnesZ : Grid 1 1 2 :=
  fun i j k => onesZ i j k - onesZ i j (shiftBwd k) / 2

lemma xmv_c0 (D : Fin 6 → ℚ) : x_manifold_voxel D 0 = D 0 := rfl

lemma xmv_c3 (D : Fin 6 → ℚ) : x_manifold_voxel D 3 = D 1 / D 0 := rfl

lemma xmv_c4 (D : Fin 6 → ℚ) : x_manifold_voxel D 4 = D 3 / D 0 := rfl

lemma xmv_c1 (D : Fin 6 → ℚ) :
    x_manifold_voxel D 1 = D 2 - D 0 * (D 1 / D 0) ^ 2 := rfl

lemma xmv_c5 (D : Fin 6 → ℚ) :
    x_manifold_voxel D 5 =
      (D 4 - D 0 * (D 1 / D 0) * (D 3 / D 0)) /
        (D 2 - D 0 * (D 1 / D 0) ^ 2) := rfl

lemma xmv_c2 (D : Fin 6 → ℚ) :
    x_manifold_voxel D 2 =
      D 5 - D 0 * (D 3 / D 0) ^ 2 -
        (D 2 - D 0 * (D 1 / D 0) ^ 2) *
          ((D 4 - D 0 * (D 1 / D 0) * (D 3 / D 0)) /
            (D 2 - D 0 * (D 1 / D 0) ^ 2)) ^ 2 := rfl

lemma dmv_c0 (X : Fin 6 → ℚ) : d_manifold_voxel X 0 = X 0 := rfl

lemma dmv_c1 (X : Fin 6 → ℚ) : d_manifold_voxel X 1 = X 0 * X 3 := rfl

lemma dmv_c2 (X : Fin 6 → ℚ) :
    d_manifold_voxel X 2 = X 1 + X 0 * X 3 ^ 2 := rfl

lemma dmv_c3 (X : Fin 6 → ℚ) : d_manifold_voxel X 3 = X 0 * X 4 := rfl

lemma dmv_c4 (X : Fin 6 → ℚ) :
    d_manifold_voxel X 4 = X 0 * X 3 * X 4 + X 1 * X 5 := rfl

lemma dmv_c5 (X : Fin 6 → ℚ) :
    d_manifold_voxel X 5 = X 2 + X 0 * X 4 ^ 2 + X 1 * X 5 ^ 2 := rfl

/-- Per-voxel round trip: converting to Iwasawa coordinates and back
restores the tensor, as long as the two divisions were legitimate
(Dxx nonzero and the X2 pivot nonzero). -/
lemma voxel_round_trip (D : Fin 6 → ℚ) (h0 : D 0 ≠ 0)
    (h2 : D 2 - D 0 * (D 1 / D 0) ^ 2 ≠ 0) :
    ∀ c, d_manifold_voxel (x_manifold_voxel D) c = D c := by
  intro c
  have h2' : D 2 * D 0 ^ 2 - D 0 * D 1 ^ 2 ≠ 0 := by
    intro hz
    apply h2
    field_simp
    linear_combination hz
  fin_cases c
  · show d_manifold_voxel (x_manifold_voxel D) 0 = D 0
    rw [dmv_c0, xmv_c0]
  · show d_manifold_voxel (x_manifold_voxel D) 1 = D 1
    rw [dmv_c1, xmv_c0, xmv_c3]
    field_simp
  · show d_manifold_voxel (x_manifold_voxel D) 2 = D 2
    rw [dmv_c2, xmv_c1, xmv_c0, xmv_c3]
    ring
  · show d_manifold_voxel (x_manifold_voxel D) 3 = D 3
    rw [dmv_c3, xmv_c0, xmv_c4]
    field_simp
  · show d_manifold_voxel (x_manifold_voxel D) 4 = D 4
    rw [dmv_c4, xmv_c0, xmv_c3, xmv_c4, xmv_c1, xmv_c5]
    field_simp
    ring
  · show d_manifold_voxel (x_manifold_voxel D) 5 = D 5
    rw [dmv_c5, xmv_c2, xmv_c0, xmv_c4, xmv_c1, xmv_c5]
    ring

/-- Per-voxel reverse round trip: converting Iwasawa coordinates to
tensor components and back restores the coordinates, as long as the
two divisions performed on the way back are legitimate (X1 and the X2
pivot nonzero). -/
lemma voxel_reverse_round_trip (X : Fin 6 → ℚ) (h0 : X 0 ≠ 0)
    (h1 : X 1 ≠ 0) :
    ∀ c, x_manifold_voxel (d_manifold_voxel X) c = X c := by
  intro c
  have hden : d_manifold_voxel X 2 -
      d_manifold_voxel X 0 * (d_manifold_voxel X 1 / d_manifold_voxel X 0) ^ 2 = X 1 := by
    rw [dmv_c2, dmv_c0, dmv_c1]
    field_simp
  fin_cases c
  · show x_manifold_voxel (d_manifold_voxel X) 0 = X 0
    rw [xmv_c0, dmv_c0]
  · show x_manifold_voxel (d_manifold_voxel X) 1 = X 1
    rw [xmv_c1]
    exact hden
  · show x_manifold_voxel (d_manifold_voxel X) 2 = X 2
    rw [xmv_c2]
    rw [show d_manifold_voxel X 2 - d_manifold_voxel X 0 *
          (d_manifold_voxel X 1 / d_manifold_voxel X 0) ^ 2 = X 1 from hden]
    rw [dmv_c5, dmv_c0, dmv_c1, dmv_c3, dmv_c4]
    field_simp
    ring
  · show x_manifold_voxel (d_manifold_voxel X) 3 = X 3
    rw [xmv_c3, dmv_c0, dmv_c1]
    field_simp
  · show x_manifold_voxel (d_manifold_voxel X) 4 = X 4
    rw [xmv_c4, dmv_c0, dmv_c3]
    field_simp
  · show x_manifold_voxel (d_manifold_voxel X) 5 = X 5
    rw [xmv_c5]
    rw [show d_manifold_voxel X 2 - d_manifold_voxel X 0 *
          (d_manifold_voxel X 1 / d_manifold_voxel X 0) ^ 2 = X 1 from hden]
    rw [dmv_c4, dmv_c0, dmv_c1, dmv_c3]
    field_simp

lemma Dex_e0 : Dex 0 = 2 := rfl

lemma Dex_e1 : Dex 1 = 2 := rfl

lemma Dex_e2 : Dex 2 = 5 := rfl

lemma Dex_e3 : Dex 3 = 4 := rfl

lemma Dex_e4 : Dex 4 = 6 := rfl

lemma Dex_e5 : Dex 5 = 14 := rfl

lemma Dex_X0 : x_manifold_voxel Dex 0 = 2 := by rw [xmv_c0]; norm_num [Dex]

lemma Dex_X1 : x_manifold_voxel Dex 1 = 3 := by rw [xmv_c1]; norm_num [Dex]

lemma Dex_X2 : x_manifold_voxel Dex 2 = 14 / 3 := by
  rw [xmv_c2]
  norm_num [Dex_e0, Dex_e1, Dex_e2, Dex_e3, Dex_e4, Dex_e5]

lemma Dex_X3 : x_manifold_voxel Dex 3 = 1 := by rw [xmv_c3]; norm_num [Dex]

lemma Dex_X4 : x_manifold_voxel Dex 4 = 2 := by rw [xmv_c4]; norm_num [Dex]

lemma Dex_X5 : x_manifold_voxel Dex 5 = 2 / 3 := by rw [xmv_c5]; norm_num [Dex]

/-- C1: for every tensor field D and mask such that at every masked
voxel the tensor is positive-definite (Dxx > 0 and the derived pivots
X2, X3 > 0), d_manifold (x_manifold D mask) mask equals D at every
masked voxel in all 6 channels, exactly, over exact arithmetic. -/
theorem round_trip_masked {ι : Type} (D : ι → Fin 6 → ℚ) (mask : ι → Bool)
    (hpos : ∀ v, mask v = true →
      0 < D v 0 ∧ 0 < x_manifold_voxel (D v) 1 ∧ 0 < x_manifold_voxel (D v) 2) :
    ∀ v, mask v = true → ∀ c, d_manifold (x_manifold D mask) mask v c = D v c := by
  intro v hv c
  obtain ⟨h0, h2, -⟩ := hpos v hv
  have h0' : D v 0 ≠ 0 := ne_of_gt h0
  have h2' : D v 2 - D v 0 * (D v 1 / D v 0) ^ 2 ≠ 0 := by
    rw [xmv_c1] at h2
    exact ne_of_gt h2
  simp only [d_manifold, x_manifold, hv, if_true]
  exact voxel_round_trip (D v) h0' h2' c

/-- Witness for C1 at the spec scenario tensor Dex. -/
theorem round_trip_masked_witness :
    (maskTrue () = true ∧ 0 < Dex 0 ∧
      0 < x_manifold_voxel Dex 1 ∧ 0 < x_manifold_voxel Dex 2) ∧
    ∀ c, d_manifold (x_manifold DexField maskTrue) maskTrue () c = DexField () c := by
  have h0 : (0 : ℚ) < Dex 0 := by norm_num [Dex]
  have h1 : 0 < x_manifold_voxel Dex 1 := by rw [Dex_X1]; norm_num
  have h2 : 0 < x_manifold_voxel Dex 2 := by rw [Dex_X2]; norm_num
  exact ⟨⟨rfl, h0, h1, h2⟩,
    round_trip_masked DexField maskTrue (fun _ _ => ⟨h0, h1, h2⟩) () rfl⟩

/-- C2: for every input array and every mask, x_manifold is exactly
zero in all 6 channels at every unmasked voxel, and so is d_manifold,
regardless of the input values there. -/
theorem unmasked_zero {ι : Type} (D X : ι → Fin 6 → ℚ) (mask : ι → Bool)
    (v : ι) (hv : mask v = false) (c : Fin 6) :
    x_manifold D mask v c = 0 ∧ d_manifold X mask v c = 0 := by
  simp [x_manifold, d_manifold, hv]

/-- Witness for C2 on a nonzero voxel excluded by the mask. -/
theorem unmasked_zero_witness :
    maskFalse () = false ∧
    x_manifold DexField maskFalse () 0 = 0 ∧ d_manifold DexField maskFalse () 0 = 0 :=
  ⟨rfl, unmasked_zero DexField DexField maskFalse () rfl 0⟩

/-- C3: at every masked voxel, x_manifold computes X1 = Dxx,
X4 = Dxy/Dxx, X5 = Dxz/Dxx, X2 = Dyy - X1*X4^2,
X6 = (Dyz - X1*X4*X5)/X2, X3 = Dzz - X1*X5^2 - X2*X6^2, with the
channel layout X1,X2,X3,X4,X5,X6 = slots 0..5 and D layout
Dxx,Dxy,Dyy,Dxz,Dyz,Dzz = slots 0..5. -/
theorem x_manifold_channel_formulas {ι : Type} (D : ι → Fin 6 → ℚ)
    (mask : ι → Bool) (v : ι) (hv : mask v = true) :
    x_manifold D mask v 0 = D v 0 ∧
    x_manifold D mask v 3 = D v 1 / D v 0 ∧
    x_manifold D mask v 4 = D v 3 / D v 0 ∧
    x_manifold D mask v 1 =
      D v 2 - x_manifold D mask v 0 * x_manifold D mask v 3 ^ 2 ∧
    x_manifold D mask v 5 =
      (D v 4 - x_manifold D mask v 0 * x_manifold D mask v 3 * x_manifold D mask v 4) /
        x_manifold D mask v 1 ∧
    x_manifold D mask v 2 =
      D v 5 - x_manifold D mask v 0 * x_manifold D mask v 4 ^ 2 -
        x_manifold D mask v 1 * x_manifold D mask v 5 ^ 2 := by
  simp only [x_manifold, hv, if_true]
  refine ⟨xmv_c0 _, xmv_c3 _, xmv_c4 _, ?_, ?_, ?_⟩
  · rw [xmv_c1, xmv_c0, xmv_c3]
  · rw [xmv_c5, xmv_c0, xmv_c3, xmv_c4, xmv_c1]
  · rw [xmv_c2, xmv_c0, xmv_c4, xmv_c1, xmv_c5]

/-- Witness for C3: on Dex = (2,2,5,4,6,14) with mask true the formulas
hold and evaluate to X1=2, X2=3, X3=14/3, X4=1, X5=2, X6=2/3. -/
theorem x_manifold_channel_formulas_witness :
    (maskTrue () = true ∧
      (x_manifold DexField maskTrue () 0 = DexField () 0 ∧
       x_manifold DexField maskTrue () 3 = DexField () 1 / DexField () 0 ∧
       x_manifold DexField maskTrue () 4 = DexField () 3 / DexField () 0 ∧
       x_manifold DexField maskTrue () 1 =
         DexField () 2 - x_manifold DexField maskTrue () 0 *
           x_manifold DexField maskTrue () 3 ^ 2 ∧
       x_manifold DexField maskTrue () 5 =
         (DexField () 4 - x_manifold DexField maskTrue () 0 *
           x_manifold DexField maskTrue () 3 * x_manifold DexField maskTrue () 4) /
           x_manifold DexField maskTrue () 1 ∧
       x_manifold DexField maskTrue () 2 =
         DexField () 5 - x_manifold DexField maskTrue () 0 *
           x_manifold DexField maskTrue () 4 ^ 2 -
           x_manifold DexField maskTrue () 1 *
             x_manifold DexField maskTrue () 5 ^ 2)) ∧
    (x_manifold DexField maskTrue () 0 = 2 ∧
     x_manifold DexField maskTrue () 1 = 3 ∧
     x_manifold DexField maskTrue () 2 = 14 / 3 ∧
     x_manifold DexField maskTrue () 3 = 1 ∧
     x_manifold DexField maskTrue () 4 = 2 ∧
     x_manifold DexField maskTrue () 5 = 2 / 3) :=
  ⟨⟨rfl, x_manifold_channel_formulas DexField maskTrue () rfl⟩,
    Dex_X0, Dex_X1, Dex_X2, Dex_X3, Dex_X4, Dex_X5⟩

/-- C10: for every manifold field X and mask such that at every masked
voxel X1 and X2 are nonzero, x_manifold (d_manifold X mask) mask
reproduces X at every masked voxel in all 6 channels. -/
theorem reverse_round_trip_masked {ι : Type} (X : ι → Fin 6 → ℚ)
    (mask : ι → Bool)
    (hnz : ∀ v, mask v = true → X v 0 ≠ 0 ∧ X v 1 ≠ 0) :
    ∀ v, mask v = true → ∀ c, x_manifold (d_manifold X mask) mask v c = X v c := by
  intro v hv c
  obtain ⟨h0, h1⟩ := hnz v hv
  simp only [x_manifold, d_manifold, hv, if_true]
  exact voxel_reverse_round_trip (X v) h0 h1 c

/-- Witness for C10 at the spec scenario coordinates Xex. -/
theorem reverse_round_trip_masked_witness :
    (maskTrue () = true ∧ Xex 0 ≠ 0 ∧ Xex 1 ≠ 0) ∧
    ∀ c, x_manifold (d_manifold XexField maskTrue) maskTrue () c = XexField () c := by
  have h0 : Xex 0 ≠ 0 := by norm_num [Xex]
  have h1 : Xex 1 ≠ 0 := by norm_num [Xex]
  exact ⟨⟨rfl, h0, h1⟩,
    reverse_round_trip_masked XexField maskTrue (fun _ _ => ⟨h0, h1⟩) () rfl⟩

lemma shiftFwd_lt {n : ℕ} (i : Fin n) (h : (i : ℕ) + 1 < n) :
    shiftFwd i = ⟨(i : ℕ) + 1, h⟩ := by
  unfold shiftFwd
  rw [dif_pos h]

lemma shiftFwd_last {n : ℕ} (i : Fin n) (h : (i : ℕ) = n - 1) :
    shiftFwd i = i := by
  unfold shiftFwd
  rw [dif_neg]
  have := i.isLt
  omega

/-- C4: for every 3D field, every axis in {0,1,2}, and every voxel
size, forward_diff returns a same-shape array with
grad[i] = (field[i+1] - field[i]) / vox_size along the chosen axis at
every index whose successor is in range, and grad = 0 at the last index
along that axis. -/
theorem forward_diff_formula {nx ny nz : ℕ} (Xi : Grid nx ny nz)
    (vox_size : ℚ) (gx gy gz : Grid nx ny nz)
    (hx : forward_diff Xi 0 vox_size = Except.ok gx)
    (hy : forward_diff Xi 1 vox_size = Except.ok gy)
    (hz : forward_diff Xi 2 vox_size = Except.ok gz) :
    (∀ (i : Fin nx) (j : Fin ny) (k : Fin nz),
      (∀ h : i.val + 1 < nx,
        gx i j k = (Xi ⟨i.val + 1, h⟩ j k - Xi i j k) / vox_size) ∧
      (i.val = nx - 1 → gx i j k = 0)) ∧
    (∀ (i : Fin nx) (j : Fin ny) (k : Fin nz),
      (∀ h : j.val + 1 < ny,
        gy i j k = (Xi i ⟨j.val + 1, h⟩ k - Xi i j k) / vox_size) ∧
      (j.val = ny - 1 → gy i j k = 0)) ∧
    (∀ (i : Fin nx) (j : Fin ny) (k : Fin nz),
      (∀ h : k.val + 1 < nz,
        gz i j k = (Xi i j ⟨k.val + 1, h⟩ - Xi i j k) / vox_size) ∧
      (k.val = nz - 1 → gz i j k = 0)) := by
  have egx : gx = fun i j k => (Xi (shiftFwd i) j k - Xi i j k) / vox_size :=
    (Except.ok.inj hx).symm
  have egy : gy = fun i j k => (Xi i (shiftFwd j) k - Xi i j k) / vox_size :=
    (Except.ok.inj hy).symm
  have egz : gz = fun i j k => (Xi i j (shiftFwd k) - Xi i j k) / vox_size :=
    (Except.ok.inj hz).symm
  subst egx egy egz
  refine ⟨fun i j k => ⟨fun h => ?_, fun h => ?_⟩,
    fun i j k => ⟨fun h => ?_, fun h => ?_⟩,
    fun i j k => ⟨fun h => ?_, fun h => ?_⟩⟩
  · show (Xi (shiftFwd i) j k - Xi i j k) / vox_size = _
    rw [shiftFwd_lt i h]
  · show (Xi (shiftFwd i) j k - Xi i j k) / vox_size = 0
    rw [shiftFwd_last i h, sub_self, zero_div]
  · show (Xi i (shiftFwd j) k - Xi i j k) / vox_size = _
    rw [shiftFwd_lt j h]
  · show (Xi i (shiftFwd j) k - Xi i j k) / vox_size = 0
    rw [shiftFwd_last j h, sub_self, zero_div]
  · show (Xi i j (shiftFwd k) - Xi i j k) / vox_size = _
    rw [shiftFwd_lt k h]
  · show (Xi i j (shiftFwd k) - Xi i j k) / vox_size = 0
    rw [shiftFwd_last k h, sub_self, zero_div]

/-- Witness for C4: the field 1,2,4,7 along axis 0 at unit voxel size
has forward difference 1,2,3,0. -/
theorem forward_diff_formula_witness :
    (forward_diff field1247 0 1 = Except.ok fwdX1247 ∧
     forward_diff field1247 1 1 = Except.ok fwdY1247 ∧
     forward_diff field1247 2 1 = Except.ok fwdZ1247) ∧
    fwdX1247 1 0 0 = (field1247 2 0 0 - field1247 1 0 0) / 1 ∧
    fwdX1247 0 0 0 = 1 ∧ fwdX1247 1 0 0 = 2 ∧
    fwdX1247 2 0 0 = 3 ∧ fwdX1247 3 0 0 = 0 := by
  have h := forward_diff_formula field1247 1 fwdX1247 fwdY1247 fwdZ1247 rfl rfl rfl
  refine ⟨⟨rfl, rfl, rfl⟩, ?_, ?_, ?_, ?_, ?_⟩
  · exact (h.1 1 0 0).1 (by norm_num)
  · rw [show fwdX1247 0 0 0 = ((2 : ℚ) - 1) / 1 from rfl]
    norm_num
  · rw [show fwdX1247 1 0 0 = ((4 : ℚ) - 2) / 1 from rfl]
    norm_num
  · rw [show fwdX1247 2 0 0 = ((7 : ℚ) - 4) / 1 from rfl]
    norm_num
  · exact (h.1 3 0 0).2 rfl

/-- C5: the dim 2 branch of backward_diff in the source is
dbX = Xi - (Xi[..., shift]) / vox_size, dividing only the shifted term
by the voxel size, against its own docstring (the backward difference
normalized by voxel size, as the dim 0 and dim 1 branches do).  On the
field 3,5 along z with voxel size 2 the code yields 3/2, 7/2 where the
claimed uniform formula (field[i] - field[i-1]) / vox gives 0, 1. -/
theorem backward_diff_dim2_divergence :
    backward_diff fieldZ35 2 2 = Except.ok bwdZ35 ∧
    bwdZ35 0 0 0 = 3 / 2 ∧ bwdZ35 0 0 1 = 7 / 2 ∧
    bwdZ35 0 0 0 ≠ 0 ∧
    bwdZ35 0 0 1 ≠ (fieldZ35 0 0 1 - fieldZ35 0 0 0) / 2 := by
  refine ⟨rfl, ?_, ?_, ?_, ?_⟩
  · rw [show bwdZ35 0 0 0 = (3 : ℚ) - 3 / 2 from rfl]
    norm_num
  · rw [show bwdZ35 0 0 1 = (5 : ℚ) - 3 / 2 from rfl]
    norm_num
  · rw [show bwdZ35 0 0 0 = (3 : ℚ) - 3 / 2 from rfl]
    norm_num
  · rw [show bwdZ35 0 0 1 = (5 : ℚ) - 3 / 2 from rfl,
      show fieldZ35 0 0 1 = (5 : ℚ) from rfl,
      show fieldZ35 0 0 0 = (3 : ℚ) from rfl]
    norm_num

/-- C6: a spatially constant field should give all-zero differences on
any axis and any voxel size; forward_diff does, but because of the
dim 2 slip in backward_diff the constant field of ones with voxel
size 2 along axis 2 yields the nonzero constant 1 - 1/2 = 1/2. -/
theorem backward_diff_const_divergence :
    forward_diff onesZ 2 2 = Except.ok (fun _ _ _ => 0) ∧
    backward_diff onesZ 2 2 = Except.ok bwdOnesZ ∧
    bwdOnesZ 0 0 0 = 1 / 2 ∧ bwdOnesZ 0 0 0 ≠ 0 := by
  refine ⟨?_, rfl, ?_, ?_⟩
  · refine congrArg Except.ok (funext fun i => funext fun j => funext fun k => ?_)
    show (onesZ i j (shiftFwd k) - onesZ i j k) / 2 = 0
    rw [show onesZ i j (shiftFwd k) = 1 from rfl, show onesZ i j k = 1 from rfl,
      sub_self, zero_div]
  · rw [show bwdOnesZ 0 0 0 = (1 : ℚ) - 1 / 2 from rfl]
    norm_num
  · rw [show bwdOnesZ 0 0 0 = (1 : ℚ) - 1 / 2 from rfl]
    norm_num

/-- C7: the forward difference operator is linear: on any axis in
{0,1,2}, any scalars a, b and any voxel size,
forward_diff (a*f + b*g) equals a * forward_diff f + b * forward_diff g
pointwise. -/
theorem forward_diff_linear {nx ny nz : ℕ} (f g : Grid nx ny nz) (a b : ℚ)
    (dim : ℤ) (vox_size : ℚ) (df dg : Grid nx ny nz)
    (hf : forward_diff f dim vox_size = Except.ok df)
    (hg : forward_diff g dim vox_size = Except.ok dg) :
    forward_diff (fun i j k => a * f i j k + b * g i j k) dim vox_size =
      Except.ok fun i j k => a * df i j k + b * dg i j k := by
  have hcases : dim = 0 ∨ dim = 1 ∨ dim = 2 ∨ (¬ dim = 0 ∧ ¬ dim = 1 ∧ ¬ dim = 2) := by
    omega
  rcases hcases with rfl | rfl | rfl | ⟨h0, h1, h2⟩
  · have ef : df = fun i j k => (f (shiftFwd i) j k - f i j k) / vox_size :=
      (Except.ok.inj hf).symm
    have eg : dg = fun i j k => (g (shiftFwd i) j k - g i j k) / vox_size :=
      (Except.ok.inj hg).symm
    subst ef eg
    refine congrArg Except.ok (funext fun i => funext fun j => funext fun k => ?_)
    show (a * f (shiftFwd i) j k + b * g (shiftFwd i) j k -
        (a * f i j k + b * g i j k)) / vox_size =
      a * ((f (shiftFwd i) j k - f i j k) / vox_size) +
        b * ((g (shiftFwd i) j k - g i j k) / vox_size)
    ring
  · have ef : df = fun i j k => (f i (shiftFwd j) k - f i j k) / vox_size :=
      (Except.ok.inj hf).symm
    have eg : dg = fun i j k => (g i (shiftFwd j) k - g i j k) / vox_size :=
      (Except.ok.inj hg).symm
    subst ef eg
    refine congrArg Except.ok (funext fun i => funext fun j => funext fun k => ?_)
    show (a * f i (shiftFwd j) k + b * g i (shiftFwd j) k -
        (a * f i j k + b * g i j k)) / vox_size =
      a * ((f i (shiftFwd j) k - f i j k) / vox_size) +
        b * ((g i (shiftFwd j) k - g i j k) / vox_size)
    ring
  · have ef : df = fun i j k => (f i j (shiftFwd k) - f i j k) / vox_size :=
      (Except.ok.inj hf).symm
    have eg : dg = fun i j k => (g i j (shiftFwd k) - g i j k) / vox_size :=
      (Except.ok.inj hg).symm
    subst ef eg
    refine congrArg Except.ok (funext fun i => funext fun j => funext fun k => ?_)
    show (a * f i j (shiftFwd k) + b * g i j (shiftFwd k) -
        (a * f i j k + b * g i j k)) / vox_size =
      a * ((f i j (shiftFwd k) - f i j k) / vox_size) +
        b * ((g i j (shiftFwd k) - g i j k) / vox_size)
    ring
  · exfalso
    simp only [forward_diff, if_neg h0, if_neg h1, if_neg h2] at hf
    split_ifs at hf

/-- Witness for C7 with a = 2, b = 3, the field 1,2,4,7 and the
constant field of ones along axis 0 at unit voxel size. -/
theorem forward_diff_linear_witness :
    forward_diff field1247 0 1 = Except.ok fwdX1247 ∧
    forward_diff onesX 0 1 = Except.ok fwdOnesX ∧
    forward_diff (fun i j k => 2 * field1247 i j k + 3 * onesX i j k) 0 1 =
      Except.ok fun i j k => 2 * fwdX1247 i j k + 3 * fwdOnesX i j k :=
  ⟨rfl, rfl, forward_diff_linear field1247 onesX 2 3 0 1 fwdX1247 fwdOnesX rfl rfl⟩

/-- C8 counterexample: at axis 5 (and at axis -1) neither forward_diff
nor backward_diff produces the explicit invalid-argument rejection the
claim asserts: axis 5 already fails with IndexError at the tuple
lookup n = Xi.shape[dim] before the if/elif chain, and axis -1 passes
the lookup, matches no branch of the else-less chain and fails with
the unbound result variable. -/
theorem invalid_axis_not_explicit_counterexample :
    (forward_diff onesZ 5 1 = Except.error PyError.indexError ∧
     backward_diff onesZ 5 1 = Except.error PyError.indexError ∧
     forward_diff onesZ 5 1 ≠ Except.error PyError.invalidArgument ∧
     backward_diff onesZ 5 1 ≠ Except.error PyError.invalidArgument) ∧
    (forward_diff onesZ (-1) 1 = Except.error PyError.unboundLocal ∧
     backward_diff onesZ (-1) 1 = Except.error PyError.unboundLocal ∧
     forward_diff onesZ (-1) 1 ≠ Except.error PyError.invalidArgument ∧
     backward_diff onesZ (-1) 1 ≠ Except.error PyError.invalidArgument) := by
  refine ⟨⟨rfl, rfl, ?_, ?_⟩, rfl, rfl, ?_, ?_⟩
  · intro h
    exact PyError.noConfusion (Except.error.inj h)
  · intro h
    exact PyError.noConfusion (Except.error.inj h)
  · intro h
    exact PyError.noConfusion (Except.error.inj h)
  · intro h
    exact PyError.noConfusion (Except.error.inj h)

/-- C8 amended: for every axis outside {0,1,2} both difference
functions fail rather than returning a gradient array, but never
through an explicit invalid-argument check: axes above 2 or below -3
raise IndexError at the shape lookup that precedes the if/elif chain,
and axes -1, -2, -3 pass the lookup, match no branch of the else-less
chain, and raise UnboundLocalError at the return. -/
theorem invalid_axis_failure {nx ny nz : ℕ} (Xi : Grid nx ny nz)
    (dim : ℤ) (vox_size : ℚ) (h : dim < 0 ∨ 2 < dim) :
    ((2 < dim ∨ dim < -3) →
      forward_diff Xi dim vox_size = Except.error PyError.indexError ∧
      backward_diff Xi dim vox_size = Except.error PyError.indexError) ∧
    ((-3 ≤ dim ∧ dim < 0) →
      forward_diff Xi dim vox_size = Except.error PyError.unboundLocal ∧
      backward_diff Xi dim vox_size = Except.error PyError.unboundLocal) ∧
    (∀ g, forward_diff Xi dim vox_size ≠ Except.ok g ∧
      backward_diff Xi dim vox_size ≠ Except.ok g) ∧
    forward_diff Xi dim vox_size ≠ Except.error PyError.invalidArgument ∧
    backward_diff Xi dim vox_size ≠ Except.error PyError.invalidArgument := by
  have h0 : ¬ dim = 0 := by omega
  have h1 : ¬ dim = 1 := by omega
  have h2 : ¬ dim = 2 := by omega
  by_cases hout : 2 < dim ∨ dim < -3
  · have ef : forward_diff Xi dim vox_size = Except.error PyError.indexError := by
      simp only [forward_diff, if_pos hout]
    have eb : backward_diff Xi dim vox_size = Except.error PyError.indexError := by
      simp only [backward_diff, if_pos hout]
    refine ⟨fun _ => ⟨ef, eb⟩, fun hin => absurd hout (by omega), fun g => ⟨?_, ?_⟩, ?_, ?_⟩
    · rw [ef]
      intro hc
      exact Except.noConfusion hc
    · rw [eb]
      intro hc
      exact Except.noConfusion hc
    · rw [ef]
      intro hc
      exact PyError.noConfusion (Except.error.inj hc)
    · rw [eb]
      intro hc
      exact PyError.noConfusion (Except.error.inj hc)
  · have ef : forward_diff Xi dim vox_size = Except.error PyError.unboundLocal := by
      simp only [forward_diff, if_neg hout, if_neg h0, if_neg h1, if_neg h2]
    have eb : backward_diff Xi dim vox_size = Except.error PyError.unboundLocal := by
      simp only [backward_diff, if_neg hout, if_neg h0, if_neg h1, if_neg h2]
    refine ⟨fun hc => absurd hc hout, fun _ => ⟨ef, eb⟩, fun g => ⟨?_, ?_⟩, ?_, ?_⟩
    · rw [ef]
      intro hc
      exact Except.noConfusion hc
    · rw [eb]
      intro hc
      exact Except.noConfusion hc
    · rw [ef]
      intro hc
      exact PyError.noConfusion (Except.error.inj hc)
    · rw [eb]
      intro hc
      exact PyError.noConfusion (Except.error.inj hc)

/-- Witness for the amended C8 at axis 5 (IndexError path) and at
axis -1 (UnboundLocalError path). -/
theorem invalid_axis_failure_witness :
    (((5 : ℤ) < 0 ∨ 2 < (5 : ℤ)) ∧
      forward_diff onesZ 5 1 = Except.error PyError.indexError ∧
      backward_diff onesZ 5 1 = Except.error PyError.indexError) ∧
    (((-1 : ℤ) < 0 ∨ 2 < (-1 : ℤ)) ∧
      forward_diff onesZ (-1) 1 = Except.error PyError.unboundLocal ∧
      backward_diff onesZ (-1) 1 = Except.error PyError.unboundLocal) := by
  have h5 := invalid_axis_failure onesZ 5 1 (Or.inr (by norm_num))
  have hm := invalid_axis_failure onesZ (-1) 1 (Or.inl (by norm_num))
  exact ⟨⟨Or.inr (by norm_num), h5.1 (Or.inl (by norm_num))⟩,
    Or.inl (by norm_num), hm.2.1 ⟨by norm_num, by norm_num⟩⟩

end Beltrami
